import Mathlib

/-!
Verification of the Member Adjacency Home Assistant integration
(`custom_components/member_adjacency`).

This file gives a shallow embedding of the integration's core computation:

* `tryGetCoords` embeds `_try_get_coords_from_state` (manager.py lines
  125-156): the coordinate extraction strategies over an entity state.
* `processSide` / `updateMovement` embed `_update_movement`
  (manager.py lines 512-631): the per-side movement filter.
* `checkReliability` embeds `_check_proximity_reliability`
  (manager.py lines 474-510).
* `refresh` embeds `async_refresh` (manager.py lines 633-800): one full
  recompute cycle over the manager state.
* `asyncStepUserErrors` / `asyncStepInitErrors` embed the threshold
  validation of `config_flow.py`.

Modelling conventions: Python floats are modelled as exact rationals (ℚ);
timestamps (`datetime` values) are modelled as rational numbers of seconds;
the host great-circle distance utility (`homeassistant.util.location.distance`)
is an external collaborator and is passed in as a function parameter;
Home-Assistant bus events fired during a recompute are collected in a list,
and dispatcher sends are counted.  The formatted reason strings built with
f-strings in `_check_proximity_reliability` are modelled as a structured
inductive carrying the same data.
-/

/-- A latitude/longitude pair (Python `tuple[float, float]`). -/
abbrev Coords := ℚ × ℚ

/-! ## Python attribute values and float coercion

`_try_get_coords_from_state` inspects a Home Assistant state object: a
dictionary of attributes plus a primary state value.  `PyVal` models the
Python values that can appear there. -/

/-- A Python value stored in a state object's attributes or primary state. -/
inductive PyVal where
  /-- an int/float value -/
  | num (q : ℚ)
  /-- a string value -/
  | strv (s : String)
  /-- a list or tuple value -/
  | listv (xs : List PyVal)
  /-- a bool value -/
  | boolv (b : Bool)
  /-- Python `None` -/
  | nonev

/-- A Home Assistant state object, as read by the extractor: the attribute
dictionary (modelled as an association list, first binding wins) and the
primary state value. -/
structure StateObj where
  attributes : List (String × PyVal)
  state : PyVal

/-- `attrs.get(k)` on the attribute dictionary. -/
def lookupAttr (attrs : List (String × PyVal)) (k : String) : Option PyVal :=
  match attrs.find? (fun p => p.1 = k) with
  | some p => some p.2
  | none => none

/-- `k in attrs` on the attribute dictionary. -/
def containsKey (attrs : List (String × PyVal)) (k : String) : Bool :=
  (lookupAttr attrs k).isSome

/-! ### Modelling Python `float(...)` on strings

Python's `float` on a string strips surrounding whitespace and parses an
optionally signed decimal literal with an optional fraction and exponent.
The special values `inf` and `nan` are outside the rational model and are
treated as parse failures (no claim depends on them). -/

/-- All characters are decimal digits. -/
def allDigits (cs : List Char) : Bool :=
  cs.all Char.isDigit

/-- Numeric value of a digit string. -/
def digitsVal (cs : List Char) : ℕ :=
  cs.foldl (fun a c => a * 10 + (c.toNat - 48)) 0

/-- Strip one leading sign; `true` means negative. -/
def parseSign : List Char → Bool × List Char
  | '+' :: xs => (false, xs)
  | '-' :: xs => (true, xs)
  | xs => (false, xs)

/-- Split at the first `'.'`, if any. -/
def splitOnDot : List Char → List Char × Option (List Char)
  | [] => ([], none)
  | x :: xs =>
    if x = '.' then ([], some xs)
    else
      let r := splitOnDot xs
      (x :: r.1, r.2)

/-- Split at the first `'e'` or `'E'`, if any. -/
def splitOnExpMark : List Char → List Char × Option (List Char)
  | [] => ([], none)
  | x :: xs =>
    if x = 'e' ∨ x = 'E' then ([], some xs)
    else
      let r := splitOnExpMark xs
      (x :: r.1, r.2)

/-- Parse the unsigned mantissa `digits [. digits]` (at least one digit). -/
def parseMantissa (cs : List Char) : Option ℚ :=
  let r := splitOnDot cs
  match r.2 with
  | none =>
    if r.1 ≠ [] ∧ allDigits r.1 then some (digitsVal r.1 : ℚ) else none
  | some fp =>
    if (r.1 ≠ [] ∨ fp ≠ []) ∧ allDigits r.1 ∧ allDigits fp then
      some ((digitsVal r.1 : ℚ) + (digitsVal fp : ℚ) / (10 : ℚ) ^ fp.length)
    else none

/-- Parse a signed exponent. -/
def parseExp (cs : List Char) : Option ℤ :=
  let r := parseSign cs
  if r.2 ≠ [] ∧ allDigits r.2 then
    some (if r.1 then -(digitsVal r.2 : ℤ) else (digitsVal r.2 : ℤ))
  else none

/-- Python `float(s)` on a string, as an exact rational. -/
def parseFloat (s : String) : Option ℚ :=
  let r0 := parseSign s.trim.toList
  let r1 := splitOnExpMark r0.2
  match parseMantissa r1.1 with
  | none => none
  | some m =>
    let signed : ℚ := if r0.1 then -m else m
    match r1.2 with
    | none => some signed
    | some es =>
      match parseExp es with
      | none => none
      | some e => some (signed * (10 : ℚ) ^ e)

/-- Python `float(v)` on an arbitrary value: numbers and bools coerce,
numeric strings parse, everything else raises (modelled as `none`). -/
def pyFloat : PyVal → Option ℚ
  | .num q => some q
  | .boolv b => some (if b then 1 else 0)
  | .strv s => parseFloat s
  | .listv _ => none
  | .nonev => none

/-- `isinstance(loc, (list, tuple)) and len(loc) == 2`: view a value as a
two-element list/tuple. -/
def asPair : PyVal → Option (PyVal × PyVal)
  | .listv [x, y] => some (x, y)
  | _ => none

/-- Parse two values as floats, pairing the results; any failure is absent. -/
def parseCoordPair (x y : PyVal) : Option Coords :=
  match pyFloat x, pyFloat y with
  | some a, some b => some (a, b)
  | _, _ => none

/-- The `"Location"` attribute viewed as a two-element list/tuple, when the
attribute is present and has that shape (a missing key behaves like `None`,
exactly as `attrs.get` returns `None`). -/
def locPair (s : StateObj) : Option (PyVal × PyVal) :=
  asPair ((lookupAttr s.attributes "Location").getD .nonev)

/-- Embedding of `_try_get_coords_from_state` (manager.py lines 125-156).
Strategies, first match wins:
(a) two-element list/tuple under `"Location"`;
(b) separate `latitude`/`longitude` attributes;
(c) a `"lat,lon"` comma-separated state string. -/
def tryGetCoords (stO : Option StateObj) : Option Coords :=
  match stO with
  | none => none
  | some s =>
    match locPair s with
    | some xy => parseCoordPair xy.1 xy.2
    | none =>
      if containsKey s.attributes "latitude" ∧ containsKey s.attributes "longitude" then
        parseCoordPair ((lookupAttr s.attributes "latitude").getD .nonev)
          ((lookupAttr s.attributes "longitude").getD .nonev)
      else
        match s.state with
        | .strv str =>
          if str.contains ',' then
            match (str.splitOn ",").map String.trim with
            | [p, q] => parseCoordPair (.strv p) (.strv q)
            | _ => none
          else none
        | _ => none

/-! ## Configuration and manager state -/

/-- The configuration options read by `AdjacencyManager` (manager.py lines
234-246; `int(...)` / `float(...)` / `bool(...)` coercions give the types). -/
structure Config where
  entry_th : ℤ
  exit_th : ℤ
  max_acc_m : ℤ
  resync_silence_s : ℤ
  resync_hold_s : ℤ
  max_speed_kmh : ℚ
  min_updates_for_proximity : ℕ
  update_window_s : ℤ
  require_reliable_proximity : Bool
  deriving DecidableEq, Repr

/-- Structured rendering of the f-string reasons built in
`_check_proximity_reliability` (manager.py lines 489, 491, 501, 506, 508). -/
inductive UnreliableReason where
  | insufficient_updates_a (got min : ℕ)
  | insufficient_updates_b (got min : ℕ)
  | unrealistic_convergence (speed limit : ℚ)
  | resync_a
  | resync_b
  deriving DecidableEq, Repr

/-- Embedding of the `AdjacencyData` dataclass (manager.py lines 75-103).
ISO-format timestamp strings are modelled as the rational instants they
record. -/
structure AdjacencyData where
  distance_m : Option ℚ := none
  bucket : Option String := none
  proximity : Bool := false
  data_valid : Bool := false
  last_valid_updated : Option ℚ := none
  last_error : Option String := none
  last_changed : Option ℚ := none
  last_entered : Option ℚ := none
  last_left : Option ℚ := none
  accuracy_a : Option ℚ := none
  accuracy_b : Option ℚ := none
  proximity_update_count : ℕ := 0
  proximity_reliable : Bool := true
  unreliable_reason : Option UnreliableReason := none
  a_updates_in_window : ℕ := 0
  b_updates_in_window : ℕ := 0
  convergence_speed_kmh : Option ℚ := none
  deriving DecidableEq, Repr

/-- The per-side movement-tracking fields of the manager
(`a_prev_coords` / `a_last_fix` / `a_speed_kmh` / `a_resync_until` and the
`b_` counterparts, manager.py lines 257-264). -/
structure SideState where
  prev_coords : Option Coords := none
  last_fix : Option ℚ := none
  speed_kmh : Option ℚ := none
  resync_until : Option ℚ := none
  deriving DecidableEq, Repr

/-- The mutable state of an `AdjacencyManager` instance touched by
`async_refresh` (manager.py lines 248-272). -/
structure ManagerState where
  data : AdjacencyData := {}
  proximity_since : Option ℚ := none
  sideA : SideState := {}
  sideB : SideState := {}
  a_update_history : List ℚ := []
  b_update_history : List ℚ := []
  prev_distance_m : Option ℚ := none
  prev_distance_time : Option ℚ := none
  deriving DecidableEq, Repr

/-- The manager state at construction time (`__init__`). -/
def initialState : ManagerState := {}

/-! ## Movement filter (`_update_movement`, manager.py lines 512-631) -/

/-- The silence check of `process_side`: a last fix exists and more than
`resync_silence_s` seconds have elapsed (manager.py line 539). -/
def silenceTriggered (cfg : Config) (s : SideState) (now : ℚ) : Bool :=
  match s.last_fix with
  | some lf => decide ((cfg.resync_silence_s : ℚ) < now - lf)
  | none => false

/-- The hold check of `process_side`: a resync window is set and `now` is
still inside it (manager.py line 558). -/
def resyncHeld (s : SideState) (now : ℚ) : Bool :=
  match s.resync_until with
  | some ru => decide (now < ru)
  | none => false

/-- Store the new reading as the side's previous fix with no speed,
keeping the resync window (the first-fix / non-positive-dt / held updates
of `process_side`). -/
def storeFix (c : Coords) (now : ℚ) (s : SideState) : SideState :=
  { s with prev_coords := some c, last_fix := some now, speed_kmh := none }

/-- Embedding of the inner `process_side` of `_update_movement`
(manager.py lines 523-624), for one side.  Returns the updated side state
and the error string, mirroring the source branch for branch. -/
def processSide (cfg : Config) (dist : Coords → Coords → ℚ) (side : String)
    (coords : Option Coords) (now : ℚ) (s : SideState) : SideState × Option String :=
  match coords with
  | none => (s, none)
  | some c =>
    if silenceTriggered cfg s now then
      ({ s with resync_until := some (now + (cfg.resync_hold_s : ℚ)),
                speed_kmh := none, prev_coords := some c, last_fix := some now },
       some ("resync_" ++ side))
    else if resyncHeld s now then
      (storeFix c now s, some ("resync_" ++ side))
    else
      match s.prev_coords, s.last_fix with
      | some pc, some lf =>
        let dt := now - lf
        if dt ≤ 0 then
          (storeFix c now s, none)
        else
          let dist_m := dist pc c
          let speed := dist_m / dt * (3.6 : ℚ)
          if 0 < cfg.max_speed_kmh ∧ cfg.max_speed_kmh < speed then
            ({ s with speed_kmh := some speed, prev_coords := some c, last_fix := some now },
             some ("speed_filtered_" ++ side))
          else
            ({ s with speed_kmh := some speed, prev_coords := some c, last_fix := some now },
             none)
      | _, _ => (storeFix c now s, none)

/-- Embedding of the driving loop of `_update_movement` (manager.py lines
626-631): side `a` first; on its error, return without touching side `b`. -/
def updateMovement (cfg : Config) (dist : Coords → Coords → ℚ)
    (coords_a coords_b : Option Coords) (now : ℚ)
    (sA sB : SideState) : SideState × SideState × Option String :=
  let ra := processSide cfg dist "a" coords_a now sA
  match ra.2 with
  | some e => (ra.1, sB, some e)
  | none =>
    let rb := processSide cfg dist "b" coords_b now sB
    (ra.1, rb.1, rb.2)

/-! ## Update history and reliability
(`_count_recent_updates`, `_prune_history`, `_record_update`,
`_calculate_convergence_speed`, `_check_proximity_reliability`,
manager.py lines 438-510) -/

/-- `_count_recent_updates`: entries within `window_s` seconds of `now`. -/
def countRecentUpdates (history : List ℚ) (window_s : ℤ) (now : ℚ) : ℕ :=
  (history.filter (fun ts => decide (now - (window_s : ℚ) ≤ ts))).length

/-- `_prune_history`: keep only the entries within `window_s` of `now`. -/
def pruneHistory (history : List ℚ) (window_s : ℤ) (now : ℚ) : List ℚ :=
  history.filter (fun ts => decide (now - (window_s : ℚ) ≤ ts))

/-- `_record_update` for one side's history: append `now`, then prune with
twice the update window. -/
def recordUpdate (now : ℚ) (update_window_s : ℤ) (history : List ℚ) : List ℚ :=
  pruneHistory (history ++ [now]) (update_window_s * 2) now

/-- Both `_record_update("a")` and `_record_update("b")` calls of
`async_refresh` (manager.py lines 686-687). -/
def recordUpdates (cfg : Config) (now : ℚ) (st : ManagerState) : ManagerState :=
  { st with
      a_update_history := recordUpdate now cfg.update_window_s st.a_update_history,
      b_update_history := recordUpdate now cfg.update_window_s st.b_update_history }

/-- `_calculate_convergence_speed` (manager.py lines 460-472): closing
speed in km/h against the previously recorded distance, absent when there is
no previous distance or no positive elapsed time. -/
def calcConvergenceSpeed (current_distance_m : ℚ) (now : ℚ)
    (st : ManagerState) : Option ℚ :=
  match st.prev_distance_m, st.prev_distance_time with
  | some pd, some pt =>
    let dt_seconds := now - pt
    if dt_seconds ≤ 0 then none
    else some ((pd - current_distance_m) / dt_seconds * (3.6 : ℚ))
  | _, _ => none

/-- The resync-window checks at the end of `_check_proximity_reliability`
(manager.py lines 504-508). -/
def resyncReliability (now : ℚ) (st : ManagerState) :
    Bool × Option UnreliableReason × ManagerState :=
  if resyncHeld st.sideA now then (false, some .resync_a, st)
  else if resyncHeld st.sideB now then (false, some .resync_b, st)
  else (true, none, st)

/-- Embedding of `_check_proximity_reliability` (manager.py lines 474-510).
Returns the verdict, the reason, and the state with the data fields the
method writes (`a_updates_in_window`, `b_updates_in_window`, and — when the
count checks pass — `convergence_speed_kmh`). -/
def checkReliability (cfg : Config) (current_distance_m now : ℚ)
    (st : ManagerState) : Bool × Option UnreliableReason × ManagerState :=
  let aU := countRecentUpdates st.a_update_history cfg.update_window_s now
  let bU := countRecentUpdates st.b_update_history cfg.update_window_s now
  let st1 := { st with data :=
    { st.data with a_updates_in_window := aU, b_updates_in_window := bU } }
  if aU < cfg.min_updates_for_proximity then
    (false, some (.insufficient_updates_a aU cfg.min_updates_for_proximity), st1)
  else if bU < cfg.min_updates_for_proximity then
    (false, some (.insufficient_updates_b bU cfg.min_updates_for_proximity), st1)
  else
    let convergence := calcConvergenceSpeed current_distance_m now st1
    let st2 := { st1 with data :=
      { st1.data with convergence_speed_kmh := convergence } }
    match convergence with
    | some c =>
      if cfg.max_speed_kmh * 2 < c then
        (false, some (.unrealistic_convergence c (cfg.max_speed_kmh * 2)), st2)
      else resyncReliability now st2
    | none => resyncReliability now st2

/-! ## Buckets and hysteresis -/

/-- The `BUCKETS` table (const.py lines 60-66). -/
def BUCKETS : List (ℚ × String) :=
  [(50, "very_near"), (200, "near"), (1000, "mid"), (5000, "far"),
   ((10 : ℚ) ^ (12 : ℕ), "very_far")]

/-- `_bucket` (manager.py lines 175-180): first name whose limit strictly
exceeds the distance, else the final catch-all name. -/
def bucketOf (distance_m : ℚ) : String :=
  match BUCKETS.find? (fun lp => decide (distance_m < lp.1)) with
  | some lp => lp.2
  | none => "very_far"

/-- The hysteresis rule of `async_refresh` (manager.py lines 710-714):
while in proximity, stay iff `distance < exit_th`; while out, enter iff
`distance <= entry_th`. -/
def hysteresis (prev_prox : Bool) (meters_raw : ℚ) (entry_th exit_th : ℤ) : Bool :=
  if prev_prox then decide (meters_raw < (exit_th : ℚ))
  else decide (meters_raw ≤ (entry_th : ℚ))

/-! ## Refresh (`async_refresh`, manager.py lines 633-800) -/

/-- A Home Assistant bus event fired by `async_refresh` (the four event
kinds of const.py lines 69-72, with the payload fields the claims rely on). -/
inductive Event where
  /-- `EVENT_ENTER` -/
  | enter
  /-- `EVENT_ENTER_UNRELIABLE` -/
  | enterUnreliable
  /-- `EVENT_LEAVE` -/
  | leave
  /-- `EVENT_PROXIMITY_UPDATE`, with the `proximity_update_count` and
  `is_first_update` payload fields -/
  | proximityUpdate (count : ℕ) (isFirst : Bool)
  deriving DecidableEq, Repr

/-- The outcome of one recompute: the new manager state, the bus events
fired, and how many times the dispatcher update signal was sent. -/
structure RefreshResult where
  st : ManagerState
  events : List Event
  dispatchCount : ℕ
  deriving DecidableEq, Repr

/-- An invalid cycle: mark the data invalid with the given error code and
send the dispatcher signal once (manager.py lines 657-683). -/
def invalidResult (st : ManagerState) (err : String) : RefreshResult :=
  { st := { st with data := { st.data with data_valid := false, last_error := some err } },
    events := [],
    dispatchCount := 1 }

/-- The accuracy filter condition for one side (manager.py lines 664-674):
filtering is enabled and the side's reported accuracy exceeds the ceiling. -/
def accuracyExceeded (cfg : Config) (acc : Option ℚ) : Bool :=
  decide (0 < cfg.max_acc_m) &&
    (match acc with
     | some v => decide ((cfg.max_acc_m : ℚ) < v)
     | none => false)

/-- The proximity-transition bookkeeping and event selection of
`async_refresh` (manager.py lines 716-792), before the final
`data.proximity` write.  Returns the updated data, the new
`_proximity_since`, and the events fired. -/
def transitionStep (cfg : Config) (now : ℚ) (reliable : Bool)
    (prev_prox prox : Bool) (data : AdjacencyData) (since : Option ℚ) :
    AdjacencyData × Option ℚ × List Event :=
  if prox ≠ prev_prox then
    if prox then
      ({ data with last_changed := some now, proximity_update_count := 1,
                   last_entered := some now },
       some now,
       if cfg.require_reliable_proximity && !reliable then
         [Event.enterUnreliable]
       else
         [Event.enter, Event.proximityUpdate 1 true])
    else
      ({ data with last_changed := some now, proximity_update_count := 0,
                   last_left := some now },
       none,
       [Event.leave])
  else if prox then
    ({ data with proximity_update_count := data.proximity_update_count + 1 },
     since,
     if !cfg.require_reliable_proximity || reliable then
       [Event.proximityUpdate (data.proximity_update_count + 1) false]
     else [])
  else
    (data, since, [])

/-- Final `_proximity_since` fixups of `async_refresh`
(manager.py lines 794-797). -/
def finalizeSince (prox : Bool) (now : ℚ) (since : Option ℚ) : Option ℚ :=
  if prox then
    match since with
    | none => some now
    | some t => some t
  else none

/-- The valid tail of `async_refresh` (manager.py lines 685-800): record
the update histories, compute distance, reliability, hysteresis, event
firing and the final state publication. -/
def validRefresh (cfg : Config) (dist : Coords → Coords → ℚ)
    (ca cb : Coords) (now : ℚ) (st : ManagerState) (prev_prox : Bool) :
    RefreshResult :=
  let st2 := recordUpdates cfg now st
  let meters_raw := dist ca cb
  let rr := checkReliability cfg meters_raw now st2
  let reliable := rr.1
  let reason := rr.2.1
  let st3 := rr.2.2
  let st4 := { st3 with
    prev_distance_m := some meters_raw,
    prev_distance_time := some now,
    data := { st3.data with
      proximity_reliable := reliable,
      unreliable_reason := reason,
      distance_m := some meters_raw,
      bucket := some (bucketOf meters_raw),
      data_valid := true,
      last_error := none,
      last_valid_updated := some now } }
  let prox := hysteresis prev_prox meters_raw cfg.entry_th cfg.exit_th
  let ts := transitionStep cfg now reliable prev_prox prox st4.data st.proximity_since
  { st := { st4 with
      data := { ts.1 with proximity := prox },
      proximity_since := finalizeSince prox now ts.2.1 },
    events := ts.2.2,
    dispatchCount := 1 }

/-- Embedding of `async_refresh` (manager.py lines 633-800).  `coords_a`,
`coords_b`, `acc_a`, `acc_b` are the results of `_coords_and_acc` for the
two entities; `now` is the cycle's clock reading; `dist` is the host
great-circle distance in meters. -/
def refresh (cfg : Config) (dist : Coords → Coords → ℚ)
    (coords_a coords_b : Option Coords) (acc_a acc_b : Option ℚ)
    (now : ℚ) (st : ManagerState) : RefreshResult :=
  let prev_prox := st.data.proximity
  let st0 := { st with data := { st.data with accuracy_a := acc_a, accuracy_b := acc_b } }
  match coords_a, coords_b with
  | some ca, some cb =>
    if accuracyExceeded cfg acc_a then invalidResult st0 "accuracy_filtered_a"
    else if accuracyExceeded cfg acc_b then invalidResult st0 "accuracy_filtered_b"
    else
      let mv := updateMovement cfg dist (some ca) (some cb) now st0.sideA st0.sideB
      let st1 := { st0 with sideA := mv.1, sideB := mv.2.1 }
      match mv.2.2 with
      | some e => invalidResult st1 e
      | none => validRefresh cfg dist ca cb now st1 prev_prox
  | _, _ => invalidResult st0 "missing_coords"

/-! ## Config-flow threshold validation (config_flow.py) -/

/-- The parts of the submitted form that the user-step validation of
`MemberAdjacencyConfigFlow.async_step_user` reads (config_flow.py lines
199-218): the two selected entities, their current states, and the
integer-coerced thresholds. -/
structure UserStepInput where
  base_entity : String
  tracker_entity : String
  base_state : Option StateObj
  tracker_state : Option StateObj
  entry_th : ℤ
  exit_th : ℤ

/-- The `errors` dictionary computed by `async_step_user` on a submitted
form (config_flow.py lines 206-218), as a list of field/code pairs:
`same_entity`, then (only when no error yet) the coordinate checks, then
unconditionally the threshold check. -/
def asyncStepUserErrors (inp : UserStepInput) : List (String × String) :=
  let e1 : List (String × String) :=
    if inp.base_entity = inp.tracker_entity then
      [("tracker_entity", "same_entity")]
    else []
  let e2 : List (String × String) :=
    if e1 = [] then
      (if tryGetCoords inp.base_state = none then
        [("base_entity", "invalid_entity")] else []) ++
      (if tryGetCoords inp.tracker_state = none then
        [("tracker_entity", "invalid_entity")] else [])
    else []
  let e3 : List (String × String) :=
    if inp.exit_th < inp.entry_th then
      [("exit_threshold_m", "exit_lt_entry")]
    else []
  e1 ++ e2 ++ e3

/-- `async_step_user` creates the config entry only when the errors
dictionary is empty (config_flow.py line 220). -/
def asyncStepUserCreatesEntry (inp : UserStepInput) : Bool :=
  asyncStepUserErrors inp = []

/-- The `errors` dictionary computed by
`MemberAdjacencyOptionsFlow.async_step_init` on a submitted form
(config_flow.py lines 328-331): only the threshold check. -/
def asyncStepInitErrors (entry_th exit_th : ℤ) : List (String × String) :=
  if exit_th < entry_th then [("exit_threshold_m", "exit_lt_entry")] else []

/-- `async_step_init` saves the options only when the errors dictionary is
empty (config_flow.py line 333). -/
def asyncStepInitCreatesEntry (entry_th exit_th : ℤ) : Bool :=
  asyncStepInitErrors entry_th exit_th = []

/-! ## Claim theorems -/

/-- C1: Hysteresis evaluation.  On every recompute whose result is valid,
the new proximity state is `hysteresis prev distance entry_th exit_th`,
i.e. `distance <= entry_th` when previously out of proximity and
`distance < exit_th` when previously in proximity; and for any
`entry_th < exit_th`, folding the hysteresis rule from the in-proximity
state over any distance sequence staying strictly between the thresholds
never toggles proximity back. -/
theorem hysteresis_evaluation :
    (∀ (cfg : Config) (dist : Coords → Coords → ℚ) (ca cb : Coords)
       (acc_a acc_b : Option ℚ) (now : ℚ) (st : ManagerState),
       (refresh cfg dist (some ca) (some cb) acc_a acc_b now st).st.data.data_valid = true →
       (refresh cfg dist (some ca) (some cb) acc_a acc_b now st).st.data.proximity
         = hysteresis st.data.proximity (dist ca cb) cfg.entry_th cfg.exit_th) ∧
    (∀ (entry_th exit_th : ℤ) (ds : List ℚ),
       entry_th < exit_th →
       (∀ d ∈ ds, (entry_th : ℚ) < d ∧ d < (exit_th : ℚ)) →
       ds.foldl (fun p d => hysteresis p d entry_th exit_th) true = true) := by
  constructor
  · intro cfg dist ca cb acc_a acc_b now st h
    by_cases hA : accuracyExceeded cfg acc_a
    · simp [refresh, hA, invalidResult] at h
    by_cases hB : accuracyExceeded cfg acc_b
    · simp [refresh, hA, hB, invalidResult] at h
    rcases hm : (updateMovement cfg dist (some ca) (some cb) now
        st.sideA st.sideB).2.2 with _ | e
    · simp [refresh, hA, hB, hm, validRefresh]
    · simp [refresh, hA, hB, hm, invalidResult] at h
  · intro entry_th exit_th ds _ hmem
    induction ds with
    | nil => rfl
    | cons d ds ih =>
      have hd := hmem d (by simp)
      have hstep : hysteresis true d entry_th exit_th = true := by
        simp [hysteresis]
        exact hd.2
      simp only [List.foldl_cons, hstep]
      exact ih (fun x hx => hmem x (by simp [hx]))

/-- A concrete configuration used to exercise the theorems: thresholds
500/700 m, accuracy filter disabled, default movement-filter settings. -/
def cfgW : Config :=
  { entry_th := 500, exit_th := 700, max_acc_m := 0, resync_silence_s := 600,
    resync_hold_s := 60, max_speed_kmh := 150, min_updates_for_proximity := 3,
    update_window_s := 300, require_reliable_proximity := true }

/-- A concrete host distance function reporting 100 m for every pair. -/
def distW : Coords → Coords → ℚ := fun _ _ => 100

/-- Witness for C1 at a concrete valid recompute and the concrete
sequence 650, 550, 690, 501 staying strictly between the thresholds. -/
theorem hysteresis_evaluation_witness :
    ((refresh cfgW distW (some (0, 0)) (some (1, 1)) none none 10 initialState).st.data.data_valid
        = true
      ∧ (refresh cfgW distW (some (0, 0)) (some (1, 1)) none none 10 initialState).st.data.proximity
        = hysteresis initialState.data.proximity (distW (0, 0) (1, 1)) cfgW.entry_th cfgW.exit_th)
    ∧ ((500 : ℤ) < 700
      ∧ (∀ d ∈ [(650 : ℚ), 550, 690, 501], (500 : ℚ) < d ∧ d < (700 : ℚ))
      ∧ [(650 : ℚ), 550, 690, 501].foldl (fun p d => hysteresis p d 500 700) true = true) :=
  ⟨⟨by decide, hysteresis_evaluation.1 cfgW distW (0, 0) (1, 1) none none 10 initialState
      (by decide)⟩,
   ⟨by decide, by decide,
    hysteresis_evaluation.2 500 700 [650, 550, 690, 501] (by decide) (by decide)⟩⟩

/-- C2 counterexample: with thresholds 500/700 and the pair in proximity,
the code at distance exactly `exit_th = 700` computes `700 < 700 = false`
(it exits), and at distance `699` computes `699 < 700 = true` (it stays in
proximity) — the opposite of what the claim states for both inputs. -/
theorem entry_exit_boundary_counterexample :
    hysteresis true (700 : ℚ) 500 700 = false ∧
    hysteresis true (699 : ℚ) 500 700 = true := by
  decide

/-- C2 as amended: while not in proximity, a distance exactly equal to
`entry_th` enters; while in proximity, a distance exactly equal to
`exit_th` exits (remaining in proximity requires strictly less than
`exit_th`), and a distance one unit below `exit_th` does not exit. -/
theorem entry_exit_boundary :
    ∀ entry_th exit_th : ℤ,
      hysteresis false (entry_th : ℚ) entry_th exit_th = true ∧
      hysteresis true (exit_th : ℚ) entry_th exit_th = false ∧
      hysteresis true ((exit_th : ℚ) - 1) entry_th exit_th = true := by
  intro entry_th exit_th
  refine ⟨?_, ?_, ?_⟩ <;> simp [hysteresis]

/-- C5: Missing-coordinates frame effect.  When either side's coordinates
are unavailable, the recompute only records the reported accuracies, sets
`data_valid` to `false` and `last_error` to `"missing_coords"`, fires no
event, and sends the dispatcher signal once; `distance_m`, `bucket`,
`proximity`, `proximity_update_count`, the transition timestamps and all
movement state are exactly the previous values — in particular a pair
already in proximity stays in proximity. -/
theorem missing_coords_frame :
    ∀ (cfg : Config) (dist : Coords → Coords → ℚ)
      (coords_a coords_b : Option Coords) (acc_a acc_b : Option ℚ)
      (now : ℚ) (st : ManagerState),
      coords_a = none ∨ coords_b = none →
      refresh cfg dist coords_a coords_b acc_a acc_b now st =
        { st := { st with data := { st.data with
            accuracy_a := acc_a, accuracy_b := acc_b,
            data_valid := false, last_error := some "missing_coords" } },
          events := [], dispatchCount := 1 } ∧
      (st.data.proximity = true →
        (refresh cfg dist coords_a coords_b acc_a acc_b now st).st.data.proximity = true) := by
  intro cfg dist coords_a coords_b acc_a acc_b now st h
  have hr : refresh cfg dist coords_a coords_b acc_a acc_b now st =
      { st := { st with data := { st.data with
          accuracy_a := acc_a, accuracy_b := acc_b,
          data_valid := false, last_error := some "missing_coords" } },
        events := [], dispatchCount := 1 } := by
    rcases h with h | h <;> subst h
    · cases coords_b <;> rfl
    · cases coords_a <;> rfl
  refine ⟨hr, fun hp => ?_⟩
  rw [hr]
  exact hp

/-- Witness for C5: a concrete in-proximity state with side B's coordinates
missing keeps proximity and reports `missing_coords`. -/
theorem missing_coords_frame_witness :
    ((none : Option Coords) = none ∨ (none : Option Coords) = none) ∧
    ({ initialState with data := { initialState.data with proximity := true } }.data.proximity
      = true →
      (refresh cfgW distW (some (0, 0)) none none none 10
        { initialState with data := { initialState.data with proximity := true } }).st.data.proximity
      = true) :=
  ⟨Or.inl rfl,
   (missing_coords_frame cfgW distW (some (0, 0)) none none none 10
     { initialState with data := { initialState.data with proximity := true } }
     (Or.inr rfl)).2⟩

/-- C10 (implicit): every recompute sends the dispatcher update signal
exactly once before returning — on missing-coordinate, accuracy-filtered
and movement-rejected cycles just as on valid ones. -/
theorem dispatcher_signal_once :
    ∀ (cfg : Config) (dist : Coords → Coords → ℚ)
      (coords_a coords_b : Option Coords) (acc_a acc_b : Option ℚ)
      (now : ℚ) (st : ManagerState),
      (refresh cfg dist coords_a coords_b acc_a acc_b now st).dispatchCount = 1 := by
  intro cfg dist coords_a coords_b acc_a acc_b now st
  cases coords_a with
  | none => cases coords_b <;> rfl
  | some ca =>
    cases coords_b with
    | none => rfl
    | some cb =>
      by_cases hA : accuracyExceeded cfg acc_a
      · simp [refresh, hA, invalidResult]
      by_cases hB : accuracyExceeded cfg acc_b
      · simp [refresh, hA, hB, invalidResult]
      rcases hm : (updateMovement cfg dist (some ca) (some cb) now
          st.sideA st.sideB).2.2 with _ | e
      · simp [refresh, hA, hB, hm, validRefresh]
      · simp [refresh, hA, hB, hm, invalidResult]

/-- C9: Configuration validation.  In both the initial config flow and the
options flow, a submitted form with `exit_th < entry_th` gets the
`exit_lt_entry` validation error and no entry is created (no manager
computation can start); when `entry_th <= exit_th` this check adds no
error. -/
theorem config_threshold_validation :
    ∀ (inp : UserStepInput) (entry_th exit_th : ℤ),
      (inp.exit_th < inp.entry_th →
        ("exit_threshold_m", "exit_lt_entry") ∈ asyncStepUserErrors inp ∧
        asyncStepUserCreatesEntry inp = false) ∧
      (inp.entry_th ≤ inp.exit_th →
        ("exit_threshold_m", "exit_lt_entry") ∉ asyncStepUserErrors inp) ∧
      (exit_th < entry_th →
        ("exit_threshold_m", "exit_lt_entry") ∈ asyncStepInitErrors entry_th exit_th ∧
        asyncStepInitCreatesEntry entry_th exit_th = false) ∧
      (entry_th ≤ exit_th →
        asyncStepInitErrors entry_th exit_th = [] ∧
        asyncStepInitCreatesEntry entry_th exit_th = true) := by
  intro inp entry_th exit_th
  refine ⟨fun h => ⟨?_, ?_⟩, fun h => ?_, fun h => ⟨?_, ?_⟩, fun h => ⟨?_, ?_⟩⟩
  · simp [asyncStepUserErrors, h]
  · simp only [asyncStepUserCreatesEntry, asyncStepUserErrors, h, if_true,
      decide_eq_false_iff_not]
    intro hnil
    simp at hnil
  · have h3 : ¬ inp.exit_th < inp.entry_th := not_lt.mpr h
    simp only [asyncStepUserErrors, h3, if_false, List.append_nil]
    intro hmem
    rcases List.mem_append.mp hmem with hm | hm <;>
      (split_ifs at hm <;> simp_all)
  · simp [asyncStepInitErrors, h]
  · simp [asyncStepInitCreatesEntry, asyncStepInitErrors, h]
  · simp [asyncStepInitErrors, not_lt.mpr h]
  · simp [asyncStepInitCreatesEntry, asyncStepInitErrors, not_lt.mpr h]

/-- A concrete user-step submission with `exit_th = 400 < entry_th = 500`. -/
def inpW : UserStepInput :=
  { base_entity := "sensor.alice_geocoded_location",
    tracker_entity := "sensor.bob_geocoded_location",
    base_state := none, tracker_state := none,
    entry_th := 500, exit_th := 400 }

/-- Witness for C9: the concrete submission `inpW` is rejected with
`exit_lt_entry`, and the options flow accepts thresholds 500/700. -/
theorem config_threshold_validation_witness :
    (inpW.exit_th < inpW.entry_th ∧
      (("exit_threshold_m", "exit_lt_entry") ∈ asyncStepUserErrors inpW ∧
        asyncStepUserCreatesEntry inpW = false)) ∧
    ((500 : ℤ) ≤ 700 ∧
      (asyncStepInitErrors 500 700 = [] ∧ asyncStepInitCreatesEntry 500 700 = true)) :=
  ⟨⟨by decide, (config_threshold_validation inpW 0 0).1 (by decide)⟩,
   ⟨by decide, (config_threshold_validation inpW 500 700).2.2.2 (by decide)⟩⟩

/-- C7: Speed rejection.  For a side with a previous fix, when the silence
and hold checks do not fire, the elapsed time is positive and
`max_speed_kmh > 0`: if the computed speed (distance / dt * 3.6) strictly
exceeds `max_speed_kmh` the update is rejected with
`speed_filtered_<side>` while the previous fix and time are still advanced
to the new reading; otherwise the update is accepted with no error. -/
theorem speed_rejection :
    ∀ (cfg : Config) (dist : Coords → Coords → ℚ) (side : String)
      (c pc : Coords) (now lf : ℚ) (s : SideState),
      s.prev_coords = some pc →
      s.last_fix = some lf →
      silenceTriggered cfg s now = false →
      resyncHeld s now = false →
      0 < now - lf →
      0 < cfg.max_speed_kmh →
      (cfg.max_speed_kmh < dist pc c / (now - lf) * (3.6 : ℚ) →
        processSide cfg dist side (some c) now s =
          ({ s with speed_kmh := some (dist pc c / (now - lf) * (3.6 : ℚ)),
                    prev_coords := some c, last_fix := some now },
           some ("speed_filtered_" ++ side))) ∧
      (dist pc c / (now - lf) * (3.6 : ℚ) ≤ cfg.max_speed_kmh →
        processSide cfg dist side (some c) now s =
          ({ s with speed_kmh := some (dist pc c / (now - lf) * (3.6 : ℚ)),
                    prev_coords := some c, last_fix := some now },
           none)) := by
  intro cfg dist side c pc now lf s hpc hlf hsil hheld hdt hms
  constructor <;> intro hs
  · simp [processSide, hsil, hheld, hpc, hlf, not_le.mpr hdt, hms, hs]
  · simp [processSide, hsil, hheld, hpc, hlf, not_le.mpr hdt, not_lt.mpr hs]

/-- `cfgW` with a silence threshold long enough that a one-hour gap between
fixes is not treated as a resync. -/
def cfgW2 : Config := { cfgW with resync_silence_s := 7200 }

/-- A concrete host distance function reporting 100000 m for every pair. -/
def dist100k : Coords → Coords → ℚ := fun _ _ => 100000

/-- A side with a previous fix at the origin taken at time 0. -/
def sW : SideState :=
  { prev_coords := some (0, 0), last_fix := some 0,
    speed_kmh := none, resync_until := none }

/-- Witness for C7: a 100000 m displacement over 60 s against
`max_speed_kmh = 150` is rejected as `speed_filtered_a` (6000 km/h), while
the same displacement over 3600 s is accepted (100 km/h). -/
theorem speed_rejection_witness :
    (cfgW2.max_speed_kmh < dist100k (0, 0) (1, 1) / ((60 : ℚ) - 0) * (3.6 : ℚ) ∧
      processSide cfgW2 dist100k "a" (some (1, 1)) 60 sW =
        ({ sW with speed_kmh := some (dist100k (0, 0) (1, 1) / ((60 : ℚ) - 0) * (3.6 : ℚ)),
                   prev_coords := some (1, 1), last_fix := some 60 },
         some ("speed_filtered_" ++ "a"))) ∧
    (dist100k (0, 0) (1, 1) / ((3600 : ℚ) - 0) * (3.6 : ℚ) ≤ cfgW2.max_speed_kmh ∧
      processSide cfgW2 dist100k "a" (some (1, 1)) 3600 sW =
        ({ sW with speed_kmh := some (dist100k (0, 0) (1, 1) / ((3600 : ℚ) - 0) * (3.6 : ℚ)),
                   prev_coords := some (1, 1), last_fix := some 3600 },
         none)) :=
  ⟨⟨by norm_num [cfgW2, cfgW, dist100k],
    (speed_rejection cfgW2 dist100k "a" (1, 1) (0, 0) 60 0 sW rfl rfl
      (by norm_num [silenceTriggered, sW, cfgW2, cfgW])
      (by simp [resyncHeld, sW])
      (by norm_num)
      (by norm_num [cfgW2, cfgW])).1
      (by norm_num [cfgW2, cfgW, dist100k])⟩,
   ⟨by norm_num [cfgW2, cfgW, dist100k],
    (speed_rejection cfgW2 dist100k "a" (1, 1) (0, 0) 3600 0 sW rfl rfl
      (by norm_num [silenceTriggered, sW, cfgW2, cfgW])
      (by simp [resyncHeld, sW])
      (by norm_num)
      (by norm_num [cfgW2, cfgW])).2
      (by norm_num [cfgW2, cfgW, dist100k])⟩⟩

/-- `_check_proximity_reliability` only writes the reliability bookkeeping
fields of the data record: proximity, its update count and the transition
timestamps pass through unchanged. -/
theorem checkReliability_data_proj (cfg : Config) (d now : ℚ) (st : ManagerState) :
    (checkReliability cfg d now st).2.2.data.proximity = st.data.proximity ∧
    (checkReliability cfg d now st).2.2.data.proximity_update_count
      = st.data.proximity_update_count ∧
    (checkReliability cfg d now st).2.2.data.last_entered = st.data.last_entered ∧
    (checkReliability cfg d now st).2.2.data.last_changed = st.data.last_changed ∧
    (checkReliability cfg d now st).2.2.data.last_left = st.data.last_left := by
  have hconv : ∀ dta : AdjacencyData,
      calcConvergenceSpeed d now { st with data := dta } = calcConvergenceSpeed d now st :=
    fun _ => rfl
  by_cases h1 :
      countRecentUpdates st.a_update_history cfg.update_window_s now
        < cfg.min_updates_for_proximity
  · simp [checkReliability, h1]
  · by_cases h2 :
        countRecentUpdates st.b_update_history cfg.update_window_s now
          < cfg.min_updates_for_proximity
    · simp [checkReliability, h1, h2]
    · rcases hc : calcConvergenceSpeed d now st with _ | c
      · simp [checkReliability, h1, h2, hconv, hc, resyncReliability]
        split_ifs <;> simp
      · by_cases h3 : cfg.max_speed_kmh * 2 < c
        · simp [checkReliability, h1, h2, hconv, hc, h3]
        · simp [checkReliability, h1, h2, hconv, hc, h3, resyncReliability]
          split_ifs <;> simp

/-- C4: State invariant.  The initial data record satisfies
`proximity_update_count > 0 → proximity`, every recompute (valid or
invalid) preserves that implication, and `last_entered` changes only at a
false→true proximity transition, where it is stamped with the cycle time. -/
theorem count_entered_invariant :
    (initialState.data.proximity_update_count > 0 → initialState.data.proximity = true) ∧
    ∀ (cfg : Config) (dist : Coords → Coords → ℚ)
      (coords_a coords_b : Option Coords) (acc_a acc_b : Option ℚ)
      (now : ℚ) (st : ManagerState),
      (st.data.proximity_update_count > 0 → st.data.proximity = true) →
      (((refresh cfg dist coords_a coords_b acc_a acc_b now st).st.data.proximity_update_count > 0 →
          (refresh cfg dist coords_a coords_b acc_a acc_b now st).st.data.proximity = true) ∧
        ((refresh cfg dist coords_a coords_b acc_a acc_b now st).st.data.last_entered
            ≠ st.data.last_entered →
          st.data.proximity = false ∧
          (refresh cfg dist coords_a coords_b acc_a acc_b now st).st.data.proximity = true ∧
          (refresh cfg dist coords_a coords_b acc_a acc_b now st).st.data.last_entered
            = some now)) := by
  refine ⟨fun h => absurd h (by simp [initialState]), ?_⟩
  intro cfg dist coords_a coords_b acc_a acc_b now st hinv
  cases coords_a with
  | none =>
    cases coords_b <;> exact ⟨hinv, fun hne => (hne rfl).elim⟩
  | some ca =>
    cases coords_b with
    | none => exact ⟨hinv, fun hne => (hne rfl).elim⟩
    | some cb =>
      by_cases hA : accuracyExceeded cfg acc_a
      · simp only [refresh, hA, if_true]
        exact ⟨hinv, fun hne => (hne rfl).elim⟩
      by_cases hB : accuracyExceeded cfg acc_b
      · simp only [refresh, hA, hB, if_false, if_true]
        exact ⟨hinv, fun hne => (hne rfl).elim⟩
      rcases hm : (updateMovement cfg dist (some ca) (some cb) now
          st.sideA st.sideB).2.2 with _ | e
      swap
      · simp only [refresh, hA, hB, if_false]
        rw [hm]
        exact ⟨hinv, fun hne => (hne rfl).elim⟩
      · simp only [refresh, hA, hB, if_false]
        rw [hm]
        cases hprev : st.data.proximity
        · cases hprox : hysteresis false (dist ca cb) cfg.entry_th cfg.exit_th
          · simp only [validRefresh, transitionStep, hprox]
            simp [checkReliability_data_proj, recordUpdates]
            rcases Nat.eq_zero_or_pos st.data.proximity_update_count with h0 | hpos
            · exact h0
            · exact absurd (hinv hpos) (by simp [hprev])
          · simp only [validRefresh, transitionStep, hprox]
            simp [checkReliability_data_proj, recordUpdates, hprev]
        · cases hprox : hysteresis true (dist ca cb) cfg.entry_th cfg.exit_th
          · simp only [validRefresh, transitionStep, hprox]
            simp [checkReliability_data_proj, recordUpdates]
          · simp only [validRefresh, transitionStep, hprox]
            simp [checkReliability_data_proj, recordUpdates]

/-- Witness for C4: the invariant holds initially and is preserved by a
concrete recompute from the initial state. -/
theorem count_entered_invariant_witness :
    (initialState.data.proximity_update_count > 0 → initialState.data.proximity = true) ∧
    (((refresh cfgW distW (some (0, 0)) (some (1, 1)) none none 10
          initialState).st.data.proximity_update_count > 0 →
        (refresh cfgW distW (some (0, 0)) (some (1, 1)) none none 10
          initialState).st.data.proximity = true) ∧
      ((refresh cfgW distW (some (0, 0)) (some (1, 1)) none none 10
          initialState).st.data.last_entered ≠ initialState.data.last_entered →
        initialState.data.proximity = false ∧
        (refresh cfgW distW (some (0, 0)) (some (1, 1)) none none 10
          initialState).st.data.proximity = true ∧
        (refresh cfgW distW (some (0, 0)) (some (1, 1)) none none 10
          initialState).st.data.last_entered = some 10)) :=
  ⟨count_entered_invariant.1,
   count_entered_invariant.2 cfgW distW (some (0, 0)) (some (1, 1)) none none 10
     initialState count_entered_invariant.1⟩

/-- C3: Reliability gating.  On a valid recompute that transitions
proximity from false to true, the transition bookkeeping (update count 1,
`last_entered` stamped) happens unconditionally; the events are exactly
the unreliable-enter event when the require-reliable flag is set and the
verdict is unreliable, and exactly the normal enter plus first
proximity-update events otherwise; with the flag off the normal enter
event fires regardless of the verdict; and the stored proximity boolean is
the pure hysteresis value, untouched by the verdict. -/
theorem reliability_gating :
    ∀ (cfg : Config) (dist : Coords → Coords → ℚ) (ca cb : Coords)
      (acc_a acc_b : Option ℚ) (now : ℚ) (st : ManagerState),
      st.data.proximity = false →
      (refresh cfg dist (some ca) (some cb) acc_a acc_b now st).st.data.data_valid = true →
      (refresh cfg dist (some ca) (some cb) acc_a acc_b now st).st.data.proximity = true →
      ((refresh cfg dist (some ca) (some cb) acc_a acc_b now st).st.data.proximity_update_count
          = 1 ∧
        (refresh cfg dist (some ca) (some cb) acc_a acc_b now st).st.data.last_entered
          = some now ∧
        (refresh cfg dist (some ca) (some cb) acc_a acc_b now st).st.data.proximity
          = hysteresis false (dist ca cb) cfg.entry_th cfg.exit_th ∧
        (refresh cfg dist (some ca) (some cb) acc_a acc_b now st).events
          = (if cfg.require_reliable_proximity
                && !(refresh cfg dist (some ca) (some cb) acc_a acc_b now
                      st).st.data.proximity_reliable then
              [Event.enterUnreliable]
            else
              [Event.enter, Event.proximityUpdate 1 true]) ∧
        (cfg.require_reliable_proximity = false →
          Event.enter ∈ (refresh cfg dist (some ca) (some cb) acc_a acc_b now st).events)) := by
  intro cfg dist ca cb acc_a acc_b now st hprev hvalid hprox1
  by_cases hA : accuracyExceeded cfg acc_a
  · simp [refresh, hA, invalidResult] at hvalid
  by_cases hB : accuracyExceeded cfg acc_b
  · simp [refresh, hA, hB, invalidResult] at hvalid
  rcases hm : (updateMovement cfg dist (some ca) (some cb) now
      st.sideA st.sideB).2.2 with _ | e
  swap
  · simp [refresh, hA, hB, hm, invalidResult] at hvalid
  have hpath : refresh cfg dist (some ca) (some cb) acc_a acc_b now st
      = validRefresh cfg dist ca cb now
          { st with
              data := { st.data with accuracy_a := acc_a, accuracy_b := acc_b },
              sideA := (updateMovement cfg dist (some ca) (some cb) now st.sideA st.sideB).1,
              sideB := (updateMovement cfg dist (some ca) (some cb) now
                st.sideA st.sideB).2.1 }
          st.data.proximity := by
    simp only [refresh, if_neg hA, if_neg hB, hm]
  rw [hpath, hprev] at hprox1 ⊢
  cases hprox : hysteresis false (dist ca cb) cfg.entry_th cfg.exit_th
  · simp [validRefresh, hprox] at hprox1
  · refine ⟨?_, ?_, ?_, ?_, ?_⟩ <;>
      simp only [validRefresh, transitionStep, hprox] <;>
      simp
    intro hreq
    simp [hreq]

/-- `cfgW` with reliability enforcement disabled. -/
def cfgF : Config := { cfgW with require_reliable_proximity := false }

/-- Witness for C3: a concrete entry with too few recent updates fires only
the unreliable-enter event under `cfgW` (flag set), and fires the normal
enter event under `cfgF` (flag off). -/
theorem reliability_gating_witness :
    initialState.data.proximity = false ∧
    (refresh cfgW distW (some (0, 0)) (some (1, 1)) none none 10
      initialState).st.data.data_valid = true ∧
    (refresh cfgW distW (some (0, 0)) (some (1, 1)) none none 10
      initialState).st.data.proximity = true ∧
    ((refresh cfgW distW (some (0, 0)) (some (1, 1)) none none 10
        initialState).st.data.proximity_update_count = 1 ∧
      (refresh cfgW distW (some (0, 0)) (some (1, 1)) none none 10
        initialState).st.data.last_entered = some 10 ∧
      (refresh cfgW distW (some (0, 0)) (some (1, 1)) none none 10
        initialState).st.data.proximity
        = hysteresis false (distW (0, 0) (1, 1)) cfgW.entry_th cfgW.exit_th ∧
      (refresh cfgW distW (some (0, 0)) (some (1, 1)) none none 10 initialState).events
        = (if cfgW.require_reliable_proximity
              && !(refresh cfgW distW (some (0, 0)) (some (1, 1)) none none 10
                    initialState).st.data.proximity_reliable then
            [Event.enterUnreliable]
          else
            [Event.enter, Event.proximityUpdate 1 true]) ∧
      (cfgW.require_reliable_proximity = false →
        Event.enter ∈ (refresh cfgW distW (some (0, 0)) (some (1, 1)) none none 10
          initialState).events)) ∧
    Event.enter ∈ (refresh cfgF distW (some (0, 0)) (some (1, 1)) none none 10
      initialState).events :=
  ⟨rfl, by decide, by decide,
   reliability_gating cfgW distW (0, 0) (1, 1) none none 10 initialState rfl
     (by decide) (by decide),
   (reliability_gating cfgF distW (0, 0) (1, 1) none none 10 initialState rfl
     (by decide) (by decide)).2.2.2.2 rfl⟩

/-- A side-B state with a recent previous fix (time 900), which an
independent run of the movement filter at time 1000 would advance. -/
def sBc : SideState :=
  { prev_coords := some (5, 5), last_fix := some 900,
    speed_kmh := none, resync_until := none }

/-- C6 counterexample: at time 1000 side A (last fix at 0, silence
threshold 600 s) triggers a silence resync, the combined update returns
`resync_a`, and side B's state is left exactly as it was — even though
running the filter on side B alone would have advanced its previous fix.
The sides are therefore not processed independently: an error on side A
skips side B's state changes entirely. -/
theorem movement_both_sides_counterexample :
    (updateMovement cfgW distW (some (1, 1)) (some (6, 6)) 1000 sW sBc).2.2
      = some ("resync_" ++ "a") ∧
    (updateMovement cfgW distW (some (1, 1)) (some (6, 6)) 1000 sW sBc).2.1 = sBc ∧
    (processSide cfgW distW "b" (some (6, 6)) 1000 sBc).1 ≠ sBc := by
  have hsilA : silenceTriggered cfgW sW 1000 = true := by
    norm_num [silenceTriggered, sW, cfgW]
  have hsilB : silenceTriggered cfgW sBc 1000 = false := by
    norm_num [silenceTriggered, sBc, cfgW]
  have hheldB : resyncHeld sBc 1000 = false := by
    simp [resyncHeld, sBc]
  refine ⟨?_, ?_, ?_⟩
  · simp [updateMovement, processSide, hsilA]
  · simp [updateMovement, processSide, hsilA]
  · have hfix : (processSide cfgW distW "b" (some (6, 6)) 1000 sBc).1.last_fix
        = some 1000 := by
      norm_num [processSide, silenceTriggered, resyncHeld, storeFix, sBc, cfgW, distW]
    intro h
    rw [h] at hfix
    norm_num [sBc] at hfix

/-- C6 as amended: the movement filter runs side A first; side A's state
changes are always persisted.  When side A's outcome is no error, side B is
processed and its state changes and outcome are those of an independent
run; when side A's outcome is an error, the combined update reports that
error and side B is not processed at all that cycle (its state is left
untouched). -/
theorem movement_sequencing :
    ∀ (cfg : Config) (dist : Coords → Coords → ℚ) (ca cb : Coords)
      (now : ℚ) (sA sB : SideState),
      (updateMovement cfg dist (some ca) (some cb) now sA sB).1
        = (processSide cfg dist "a" (some ca) now sA).1 ∧
      ((processSide cfg dist "a" (some ca) now sA).2 = none →
        (updateMovement cfg dist (some ca) (some cb) now sA sB).2.1
          = (processSide cfg dist "b" (some cb) now sB).1 ∧
        (updateMovement cfg dist (some ca) (some cb) now sA sB).2.2
          = (processSide cfg dist "b" (some cb) now sB).2) ∧
      (∀ e, (processSide cfg dist "a" (some ca) now sA).2 = some e →
        (updateMovement cfg dist (some ca) (some cb) now sA sB).2.1 = sB ∧
        (updateMovement cfg dist (some ca) (some cb) now sA sB).2.2 = some e) := by
  intro cfg dist ca cb now sA sB
  rcases h : (processSide cfg dist "a" (some ca) now sA).2 with _ | e
  · exact ⟨by simp [updateMovement, h], fun _ => ⟨by simp [updateMovement, h],
      by simp [updateMovement, h]⟩, fun e he => by simp [h] at he⟩
  · exact ⟨by simp [updateMovement, h], fun hn => by simp [h] at hn,
      fun e2 he2 => by
        cases he2
        exact ⟨by simp [updateMovement, h], by simp [updateMovement, h]⟩⟩

/-- Witness for C6 (amended): with a fresh side A the filter reports side
B's own outcome, and with side A in silence-resync the combined result is
`resync_a` with side B untouched. -/
theorem movement_sequencing_witness :
    ((processSide cfgW distW "a" (some (1, 1)) 1000 ({} : SideState)).2 = none ∧
      ((updateMovement cfgW distW (some (1, 1)) (some (6, 6)) 1000
          ({} : SideState) sBc).2.1
        = (processSide cfgW distW "b" (some (6, 6)) 1000 sBc).1 ∧
       (updateMovement cfgW distW (some (1, 1)) (some (6, 6)) 1000
          ({} : SideState) sBc).2.2
        = (processSide cfgW distW "b" (some (6, 6)) 1000 sBc).2)) ∧
    ((processSide cfgW distW "a" (some (1, 1)) 1000 sW).2 = some ("resync_" ++ "a") ∧
      ((updateMovement cfgW distW (some (1, 1)) (some (6, 6)) 1000 sW sBc).2.1 = sBc ∧
       (updateMovement cfgW distW (some (1, 1)) (some (6, 6)) 1000 sW sBc).2.2
        = some ("resync_" ++ "a"))) :=
  ⟨⟨rfl, (movement_sequencing cfgW distW (1, 1) (6, 6) 1000 {} sBc).2.1 rfl⟩,
   ⟨by norm_num [processSide, silenceTriggered, sW, cfgW],
    (movement_sequencing cfgW distW (1, 1) (6, 6) 1000 sW sBc).2.2 ("resync_" ++ "a")
      (by norm_num [processSide, silenceTriggered, sW, cfgW])⟩⟩

/-- C8: Coordinate extractor strategy order.  First match wins: a
two-element `"Location"` list/tuple is parsed (success or absent) without
consulting the other strategies; otherwise, when both `latitude` and
`longitude` keys are present their values are parsed; otherwise a
comma-containing state string is split, trimmed and parsed when it has
exactly two parts.  Parse failures yield absent, and on every input the
extractor totally returns either absent or a coordinate pair (the
embedding is a total function: it never raises). -/
theorem coordinate_extraction_order :
    (∀ (s : StateObj) (x y : PyVal),
      lookupAttr s.attributes "Location" = some (.listv [x, y]) →
      tryGetCoords (some s) = parseCoordPair x y) ∧
    (∀ s : StateObj,
      locPair s = none →
      containsKey s.attributes "latitude" = true →
      containsKey s.attributes "longitude" = true →
      tryGetCoords (some s)
        = parseCoordPair ((lookupAttr s.attributes "latitude").getD .nonev)
            ((lookupAttr s.attributes "longitude").getD .nonev)) ∧
    (∀ (s : StateObj) (t : String),
      locPair s = none →
      ¬(containsKey s.attributes "latitude" = true ∧
        containsKey s.attributes "longitude" = true) →
      s.state = .strv t →
      tryGetCoords (some s)
        = (if t.contains ',' then
            match (t.splitOn ",").map String.trim with
            | [p, q] => parseCoordPair (.strv p) (.strv q)
            | _ => none
          else none)) ∧
    (∀ stO : Option StateObj,
      tryGetCoords stO = none ∨ ∃ a b : ℚ, tryGetCoords stO = some (a, b)) := by
  refine ⟨?_, ?_, ?_, ?_⟩
  · intro s x y h
    simp [tryGetCoords, locPair, h, asPair]
  · intro s h hlat hlon
    simp [tryGetCoords, h, hlat, hlon]
  · intro s t h h2 hst
    simp [tryGetCoords, h, h2, hst]
  · intro stO
    rcases h : tryGetCoords stO with _ | p
    · exact Or.inl rfl
    · exact Or.inr ⟨p.1, p.2, rfl⟩

/-- A reading whose `"Location"` attribute is a two-element numeric list
and which also carries decoy `latitude`/`longitude` attributes. -/
def stA1 : StateObj :=
  { attributes := [("Location", .listv [.num 37, .num 127]),
                   ("latitude", .num 1), ("longitude", .num 2)],
    state := .strv "irrelevant" }

/-- A reading whose `"Location"` attribute has the wrong arity, so the
`latitude`/`longitude` strategy applies. -/
def stB1 : StateObj :=
  { attributes := [("Location", .listv [.num 1, .num 2, .num 3]),
                   ("latitude", .num 37), ("longitude", .num 127)],
    state := .strv "x" }

/-- A reading with no usable attributes and a textual `"lat,lon"` state. -/
def stC1 : StateObj :=
  { attributes := [], state := .strv "37.5, 127.25" }

/-- Witness for C8: the three strategies applied to concrete readings, each
matched by the strategy the claim prescribes. -/
theorem coordinate_extraction_order_witness :
    (lookupAttr stA1.attributes "Location" = some (.listv [.num 37, .num 127]) ∧
      tryGetCoords (some stA1) = parseCoordPair (.num 37) (.num 127)) ∧
    (locPair stB1 = none ∧
      tryGetCoords (some stB1)
        = parseCoordPair ((lookupAttr stB1.attributes "latitude").getD .nonev)
            ((lookupAttr stB1.attributes "longitude").getD .nonev)) ∧
    (locPair stC1 = none ∧
      tryGetCoords (some stC1)
        = (if ("37.5, 127.25" : String).contains ',' then
            match (("37.5, 127.25" : String).splitOn ",").map String.trim with
            | [p, q] => parseCoordPair (.strv p) (.strv q)
            | _ => none
          else none)) :=
  ⟨⟨rfl, coordinate_extraction_order.1 stA1 (.num 37) (.num 127) rfl⟩,
   ⟨rfl, coordinate_extraction_order.2.1 stB1 rfl rfl rfl⟩,
   ⟨rfl, coordinate_extraction_order.2.2.1 stC1 "37.5, 127.25" rfl (by decide) rfl⟩⟩
